import Mathlib

/-!
Verification of the resumption version-probe layer (package `resumption`)
and of the machine-id bot service (package `machineidv1`) of the repository.

The Go source is shallowly embedded: pure functions become Lean functions,
machine integers become `Nat` with an explicit modulus where overflow can
occur, I/O results (key generation, socket writes, the prelude peek) become
explicit parameters, and the observable effects of a handler (bytes
discarded, sockets closed, hooks invoked) become fields of an outcome
record. All strings involved are ASCII, so `String.length` coincides with
the byte length used by the Go code.
-/

namespace Resumption

/-- Time units in nanoseconds, as in Go's `time` package (`time.Duration`
counts nanoseconds). -/
def timeSecond : Nat := 1000000000

/-- Go's `time.Minute`. -/
def timeMinute : Nat := 60 * timeSecond

/-- Modelled from the spec: the constant `sshutils.SSHVersionPrefix` lives in
`lib/sshutils` whose defining file is not part of the given sources; the spec
(and the comment next to `serverProtocolStringV1` in the source) fix the
server banner to start with `SSH-2.0-Teleport`. -/
def SSHVersionPrefix : String := "SSH-2.0-Teleport"

/-- Source constant `serverProtocolStringV1 = sshutils.SSHVersionPrefix + " resume-v1"`. -/
def serverProtocolStringV1 : String := SSHVersionPrefix ++ " resume-v1"

/-- Source constant `clientProtocolStringV1`. -/
def clientProtocolStringV1 : String := "teleport-resume-v1"

/-- Source constant `clientSuffixV1 = "\x00" + clientProtocolStringV1`. -/
def clientSuffixV1 : String := "\x00" ++ clientProtocolStringV1

/-- Source constant `clientPreludeV1 = sshPrefix + clientSuffixV1`, where the
source constant `sshPrefix` is the literal `"SSH-2.0-"`. -/
def clientPreludeV1 : String := "SSH-2.0-" ++ clientSuffixV1

/-- Source constant `detachedTimeout = time.Minute`. -/
def detachedTimeout : Nat := timeMinute

/-- Source constant `ecdhP256UncompressedSize = 65`. -/
def ecdhP256UncompressedSize : Nat := 65

/-- The standard base64 alphabet (RFC 4648), used by Go's
`encoding/base64.RawStdEncoding`. -/
def base64StdAlphabet : List Char :=
  ("ABCDEFGHIJKLMNOPQRSTUVWXYZabcdefghijklmnopqrstuvwxyz0123456789+/").toList

/-- The base64 digit for a 6-bit value. -/
def b64Char (n : Nat) : Char := base64StdAlphabet.getD n ('A')

/-- Go's `base64.RawStdEncoding.EncodeToString` over a byte list: standard
alphabet, no padding. Bytes are consumed in groups of three; a final group
of one or two bytes yields two or three digits and no `=` padding. -/
def base64RawStdEncode : List Nat → List Char
  | [] => []
  | [b1] => [b64Char (b1 / 4), b64Char (b1 % 4 * 16)]
  | [b1, b2] =>
      [b64Char (b1 / 4), b64Char (b1 % 4 * 16 + b2 / 16), b64Char (b2 % 16 * 4)]
  | b1 :: b2 :: b3 :: rest =>
      b64Char (b1 / 4) :: b64Char (b1 % 4 * 16 + b2 / 16) ::
      b64Char (b2 % 16 * 4 + b3 / 64) :: b64Char (b3 % 64) ::
      base64RawStdEncode rest

/-- An ephemeral ECDH P-256 key, represented by the byte encoding of its
public key (`dhKey.PublicKey().Bytes()` in the source, 65 bytes for an
uncompressed P-256 point). The private scalar never reaches the banner, so
it is not represented. -/
structure ECDHKey where
  pubBytes : List Nat
deriving DecidableEq

/-- Source function `serverVersionCRLFV1`: the Go code is
`fmt.Sprintf(serverProtocolStringV1+" %v %v\r\n", base64.RawStdEncoding.EncodeToString(pubKey.Bytes()), hostID)`,
which for string arguments is exactly this concatenation. -/
def serverVersionCRLFV1 (pubKeyBytes : List Nat) (hostID : String) : String :=
  serverProtocolStringV1 ++ " " ++ String.mk (base64RawStdEncode pubKeyBytes) ++
    " " ++ hostID ++ "\r\n"

/-- The Go slice `s[:len(s)-2]`, used on the banner to strip its CRLF. All
characters involved are single-byte, so the byte slice is a character take. -/
def goDropLast2 (s : String) : String :=
  String.mk (s.toList.take (s.toList.length - 2))

/-- Result of `peekPrelude(conn, clientPreludeV1)` in the source: either the
boolean `isResumeV1`, or an error, in which case the code only distinguishes
whether `utils.IsOKNetworkError(err)` holds. `peekPrelude` itself is defined
outside the given sources; its result is taken as an input here. -/
inductive PeekResult
  | ok (isResumeV1 : Bool)
  | err (isOKNetworkError : Bool)
deriving DecidableEq

/-- Result of a socket write (`nc.Write`): success, or an error with its
`utils.IsOKNetworkError` classification. -/
inductive WriteResult
  | ok
  | err (isOKNetworkError : Bool)
deriving DecidableEq

/-- The wrapper `sshVersionSkipConn` as configured by the source: the struct
itself is defined outside the given sources, but the two fields assigned in
`PreDetect` and `HandleConnection` are recorded here. -/
structure sshVersionSkipConn where
  serverVersion : String
  alreadyWritten : String
deriving DecidableEq

/-- Observable outcome of the post-detect hook returned by `PreDetect`:
the connection returned to the multiplexer (`none` models returning Go `nil`,
i.e. the hijack sentinel), whether `conn.Close()` was called, how many bytes
`conn.Discard` consumed, the key passed to `handleResumptionExchangeV1`
(`none` when the exchange is not entered; the exchange itself is outside the
given sources), and whether an error was logged. -/
structure PostDetectOutcome where
  returnedConn : Option sshVersionSkipConn
  closedConn : Bool
  discarded : Nat
  resumptionKey : Option ECDHKey
  loggedError : Bool
deriving DecidableEq

/-- The post-detect hook built inside `SSHServerWrapper.PreDetect`, as a
function of the captured banner `serverVersionCRLF`, the captured `dhKey`,
and the result of `peekPrelude`. Translated line by line from the closure in
the source. -/
def postDetectHookV1 (serverVersionCRLF : String) (dhKey : ECDHKey)
    (peek : PeekResult) : PostDetectOutcome :=
  match peek with
  | .err okNet =>
      { returnedConn := none, closedConn := true, discarded := 0,
        resumptionKey := none, loggedError := !okNet }
  | .ok false =>
      { returnedConn := some { serverVersion := goDropLast2 serverVersionCRLF,
                               alreadyWritten := serverVersionCRLF },
        closedConn := false, discarded := 0,
        resumptionKey := none, loggedError := false }
  | .ok true =>
      { returnedConn := none, closedConn := false,
        discarded := clientPreludeV1.length,
        resumptionKey := some dhKey, loggedError := false }

/-- Result of `SSHServerWrapper.PreDetect` itself. `fixedVersionFallback`
models the key-generation-failure branch, which returns
`PreDetectFixedSSHVersion(sshutils.SSHVersionPrefix)(nc)` — modelled from the
spec (that helper is outside the given sources): a hook that sends the plain
SSH version banner and continues as legacy SSH, with no resumption.
`writeError` models `return nil, trace.Wrap(err)` after a failed banner
write. `hookV1` carries the banner that was written and the generated key;
the returned hook is `postDetectHookV1` applied to them. -/
inductive PreDetectResult
  | fixedVersionFallback (version : String)
  | writeError
  | hookV1 (serverVersionCRLF : String) (dhKey : ECDHKey)
deriving DecidableEq

/-- Source function `SSHServerWrapper.PreDetect`, as a function of the host
ID, the result of `ecdh.P256().GenerateKey` (`none` = failure) and the
result of writing the banner. -/
def PreDetect (hostID : String) (keyGen : Option ECDHKey)
    (write : WriteResult) : PreDetectResult :=
  match keyGen with
  | none => .fixedVersionFallback SSHVersionPrefix
  | some dhKey =>
      match write with
      | .err _ => .writeError
      | .ok => .hookV1 (serverVersionCRLFV1 dhKey.pubBytes hostID) dhKey

/-- The connection value handed to the inner SSH server by
`HandleConnection`: either the original socket untouched, or the
`sshVersionSkipConn` wrapper. -/
inductive HandedConn
  | original
  | wrapped (c : sshVersionSkipConn)
deriving DecidableEq

/-- Observable outcome of `SSHServerWrapper.HandleConnection`: the banner
written (if any), the connection passed to `r.sshServer` (`none` when the
inner SSH server is never called), whether the socket was closed, bytes
discarded, the key passed to `handleResumptionExchangeV1`, and whether an
error was logged. -/
structure HandleConnectionOutcome where
  bannerWritten : Option String
  handedToSSHServer : Option HandedConn
  closedConn : Bool
  discarded : Nat
  resumptionKey : Option ECDHKey
  loggedError : Bool
deriving DecidableEq

/-- Source function `SSHServerWrapper.HandleConnection`, translated branch by
branch as a function of the host ID, the key-generation result, the banner
write result and the prelude peek result. -/
def HandleConnection (hostID : String) (keyGen : Option ECDHKey)
    (write : WriteResult) (peek : PeekResult) : HandleConnectionOutcome :=
  match keyGen with
  | none =>
      { bannerWritten := none, handedToSSHServer := some .original,
        closedConn := false, discarded := 0,
        resumptionKey := none, loggedError := true }
  | some dhKey =>
      let serverVersionCRLF := serverVersionCRLFV1 dhKey.pubBytes hostID
      match write with
      | .err okNet =>
          { bannerWritten := none, handedToSSHServer := none,
            closedConn := true, discarded := 0,
            resumptionKey := none, loggedError := !okNet }
      | .ok =>
          match peek with
          | .err okNet =>
              { bannerWritten := some serverVersionCRLF,
                handedToSSHServer := none, closedConn := true, discarded := 0,
                resumptionKey := none, loggedError := !okNet }
          | .ok false =>
              { bannerWritten := some serverVersionCRLF,
                handedToSSHServer :=
                  some (.wrapped { serverVersion := goDropLast2 serverVersionCRLF,
                                   alreadyWritten := serverVersionCRLF }),
                closedConn := false, discarded := 0,
                resumptionKey := none, loggedError := false }
          | .ok true =>
              { bannerWritten := some serverVersionCRLF,
                handedToSSHServer := none, closedConn := false,
                discarded := clientPreludeV1.length,
                resumptionKey := some dhKey, loggedError := false }

/-- State of the Go `time.Timer` held in a `connEntry`: stopped, or armed
with a duration (nanoseconds). -/
inductive TimerState
  | stopped
  | armed (d : Nat)
deriving DecidableEq

/-- Whether the timer is currently running. -/
def TimerState.isRunning : TimerState → Bool
  | .stopped => false
  | .armed _ => true

/-- The modulus of Go's `uint` on 64-bit platforms; `connEntry.running` has
type `uint`, so increments and decrements wrap at this modulus. -/
def uintModulus : Nat := 2 ^ 64

/-- The mutex-guarded dynamic part of the source struct `connEntry`: the
`running` counter (a Go `uint`) and its detachment `timeout` timer. The
`conn` and `remoteIP` fields play no role in the claims about this struct. -/
structure connEntry where
  running : Nat
  timeout : TimerState
deriving DecidableEq

/-- Source method `connEntry.increaseRunning`: `e.timeout.Stop(); e.running++`
(under the entry's mutex). The increment wraps as a Go `uint`. -/
def increaseRunning (e : connEntry) : connEntry :=
  { running := (e.running + 1) % uintModulus, timeout := .stopped }

/-- Source method `connEntry.decreaseRunning`: `e.running--` followed by
`if e.running == 0 { e.timeout.Reset(detachedTimeout) }` (under the entry's
mutex). The decrement wraps as a Go `uint`. -/
def decreaseRunning (e : connEntry) : connEntry :=
  let r := (e.running + (uintModulus - 1)) % uintModulus
  { running := r, timeout := if r = 0 then .armed detachedTimeout else e.timeout }

/-- Modelled from the spec: the attach/detach discipline of §4.4 applied to a
`connEntry`. The code that calls `increaseRunning`/`decreaseRunning` (the
resumable-connection attach and detach paths) is outside the given sources;
per the spec, a transport attaches only after any incumbent has been
detached (attached-count zero), and only the currently attached transport
detaches (attached-count positive). A fresh entry starts detached with its
timer armed for the detached timeout. -/
inductive AttachReachable : connEntry → Prop
  | init : AttachReachable { running := 0, timeout := .armed detachedTimeout }
  | attach (e : connEntry) : AttachReachable e → e.running = 0 →
      AttachReachable (increaseRunning e)
  | detach (e : connEntry) : AttachReachable e → 0 < e.running →
      AttachReachable (decreaseRunning e)

end Resumption

namespace MachineIDv1

/-- Constant `types.BotLabel` from the API package (its defining file is not
among the given sources; the value is the one used by Teleport). Only its
being a fixed key distinct from `BotGenerationLabel` matters below. -/
def BotLabel : String := "teleport.internal/bot"

/-- Constant `types.BotGenerationLabel` from the API package. -/
def BotGenerationLabel : String := "teleport.internal/bot-generation"

/-- Source function `BotResourceName`:
`"bot-" + strings.ReplaceAll(botName, " ", "-")`. For a one-character
pattern and replacement, Go's `strings.ReplaceAll` is exactly a character
map. -/
def BotResourceName (botName : String) : String :=
  "bot-" ++ String.mk (botName.toList.map (fun c => if c = ' ' then '-' else c))

/-- A label map (`map[string]string` in Go), determinized as an association
list; the claims only inspect it through `lookupLabel`. -/
abbrev Labels := List (String × String)

/-- Lookup of a label key (`user.GetLabel` / map indexing in Go). -/
def lookupLabel (labels : Labels) (key : String) : Option String :=
  (List.find? (fun p => p.1 == key) labels).map (fun p => p.2)

/-- Assignment `labels[key] = v` on a Go map, on the association list. -/
def setLabel (labels : Labels) (key v : String) : Labels :=
  if (List.find? (fun p => p.1 == key) labels).isSome then
    List.map (fun p => if p.1 == key then (p.1, v) else p) labels
  else
    labels ++ [(key, v)]

/-- The metadata of a user or role resource, restricted to the fields the
bot service reads or writes. -/
structure Metadata where
  name : String
  description : String
  labels : Labels
deriving DecidableEq

/-- A `types.User` restricted to the fields the bot service reads or writes:
`types.NewUser(name)` yields a user with that metadata name and everything
else empty, and the service then sets roles, labels, traits and createdBy. -/
structure User where
  metadata : Metadata
  roles : List String
  traits : List (String × List String)
  createdByUser : String
  createdByTime : Nat
deriving DecidableEq

/-- A `types.Role` restricted to the fields the bot service sets through
`types.NewRole`: the metadata, the `MaxSessionTTL` option (nanoseconds), the
allow rules (resource kinds with verbs) and the allow impersonate roles. -/
structure Role where
  metadata : Metadata
  maxSessionTTL : Nat
  allowRules : List (String × List String)
  allowImpersonateRoles : List String
deriving DecidableEq

/-- Constant `types.KindCertAuthority` from the API package. -/
def KindCertAuthority : String := "cert_authority"

/-- Constant `types.VerbReadNoSecrets` from the API package. -/
def VerbReadNoSecrets : String := "readnosecrets"

/-- A protobuf `machineidv1pb.Trait`. -/
structure Trait where
  name : String
  values : List String
deriving DecidableEq

/-- A protobuf `machineidv1pb.BotMetadata` restricted to the name. -/
structure BotMetadata where
  name : String
deriving DecidableEq

/-- A protobuf `machineidv1pb.BotSpec`. -/
structure BotSpec where
  roles : List String
  traits : List Trait
deriving DecidableEq

/-- A protobuf `machineidv1pb.Bot`; `metadata` and `spec` are pointers in Go
and may be nil, hence `Option`. -/
structure Bot where
  metadata : Option BotMetadata
  spec : Option BotSpec
deriving DecidableEq

/-- Source function `validateBot`, checking the nil pointers and the name
(the `b == nil` case of the Go code has no counterpart for a Lean value). -/
def validateBot (b : Bot) : Bool :=
  match b.metadata with
  | none => false
  | some m => if m.name = "" then false else b.spec.isSome

/-- The trait-accumulation loop shared by `botToUserAndRole` and `UpdateBot`:
traits with no values are skipped, values of traits with the same name are
appended. The Go map is determinized as an association list in first-seen
order. -/
def addTrait (acc : List (String × List String)) (t : Trait) :
    List (String × List String) :=
  if t.values.isEmpty then acc
  else if (List.find? (fun p => p.1 == t.name) acc).isSome then
    List.map (fun p => if p.1 == t.name then (p.1, p.2 ++ t.values) else p) acc
  else
    acc ++ [(t.name, t.values)]

/-- The accumulated traits of a list of protobuf traits. -/
def buildTraits (ts : List Trait) : List (String × List String) :=
  List.foldl addTrait [] ts

/-- Source function `botToUserAndRole`, translated statement by statement.
`types.NewRole` and `types.NewUser` (API package) construct a resource whose
metadata name is the argument; the function then overwrites description,
labels, roles, traits and createdBy exactly as the source does. The Go
function dereferences `bot.Metadata` and `bot.Spec`; `none` models the
nil-pointer case, which its callers exclude by validating first. -/
def botToUserAndRole (bot : Bot) (now : Nat) (createdBy : String) :
    Option (User × Role) :=
  match bot.metadata, bot.spec with
  | some meta, some spec =>
      let resourceName := BotResourceName meta.name
      let role : Role :=
        { metadata :=
            { name := resourceName,
              description := "Automatically generated role for bot " ++ meta.name,
              labels := [(BotLabel, meta.name)] },
          maxSessionTTL := 12 * 3600 * 1000000000,
          allowRules := [(KindCertAuthority, [VerbReadNoSecrets])],
          allowImpersonateRoles := spec.roles }
      let user : User :=
        { metadata :=
            { name := resourceName,
              description := "",
              labels := [(BotLabel, meta.name), (BotGenerationLabel, "0")] },
          roles := [resourceName],
          traits := buildTraits spec.traits,
          createdByUser := createdBy,
          createdByTime := now }
      some (user, role)
  | _, _ => none

/-- Source function `botFromUserAndRole`, restricted to the modelled fields:
the user's bot label is the canonical bot name (missing label is the
BadParameter case), the spec roles come from the role's allow impersonate
conditions, traits with no values are skipped. -/
def botFromUserAndRole (user : User) (role : Role) : Option Bot :=
  match lookupLabel user.metadata.labels BotLabel with
  | none => none
  | some botName =>
      some { metadata := some { name := botName },
             spec := some
               { roles := role.allowImpersonateRoles,
                 traits := (user.traits.filter (fun p => !p.2.isEmpty)).map
                   (fun p => { name := p.1, values := p.2 }) } }

/-- The calls `UpsertBot` makes on its backend after the generation check;
`GetUser` is modelled by the `existingUser` argument instead. -/
inductive BackendCall
  | upsertUserCall (u : User)
  | upsertRoleCall (r : Role)
deriving DecidableEq

/-- The error cases of `UpsertBot`, named after the Go error messages. -/
inductive UpsertError
  | validateError
  | convertError
  | badParameterMissingGeneration
deriving DecidableEq

/-- The tail of `UpsertBot` after the generation-copy step: `UpsertUser` and
`UpsertRole` (modelled as succeeding and returning their argument, the claims
being about the success path) followed by `botFromUserAndRole`. -/
def finishUpsert (user : User) (role : Role) :
    Except UpsertError Bot × List BackendCall :=
  match botFromUserAndRole user role with
  | some b => (.ok b, [.upsertUserCall user, .upsertRoleCall role])
  | none => (.error .convertError, [.upsertUserCall user, .upsertRoleCall role])

/-- Source function `UpsertBot` (the package-level function), as a function
of the bot, the clock, the creator and the result of
`backend.GetUser(ctx, BotResourceName(bot.Metadata.Name), false)`
(`some` models `err == nil`). Returns the result together with the backend
upsert calls that were made, in order. -/
def UpsertBot (bot : Bot) (now : Nat) (createdBy : String)
    (existingUser : Option User) : Except UpsertError Bot × List BackendCall :=
  if !validateBot bot then (.error .validateError, [])
  else
    match botToUserAndRole bot now createdBy with
    | none => (.error .convertError, [])
    | some (user, role) =>
        match existingUser with
        | none => finishUpsert user role
        | some ex =>
            match lookupLabel ex.metadata.labels BotGenerationLabel with
            | some existingGeneration =>
                let meta := user.metadata
                let meta2 : Metadata :=
                  { meta with labels :=
                      setLabel meta.labels BotGenerationLabel existingGeneration }
                finishUpsert { user with metadata := meta2 } role
            | none => (.error .badParameterMissingGeneration, [])

end MachineIDv1

namespace Resumption

/-- Helper: stripping the last two bytes of a string that ends in CRLF
removes exactly the CRLF. -/
theorem goDropLast2_append_crlf (s : String) : goDropLast2 (s ++ "\r\n") = s := by
  obtain ⟨l⟩ := s
  show String.mk ((l ++ ['\r', '\n']).take ((l ++ ['\r', '\n']).length - 2)) =
    String.mk l
  simp [List.take_left]

/-- C1 (corrected, counterexample): the claim as stated is false — the
client prelude `clientPreludeV1` does not have length 29 (its length is 27),
so it is not "exactly the 29 bytes" of the claim. -/
theorem c1_prelude_not_29_bytes :
    ¬ (clientPreludeV1.length = 29 ∧
        clientPreludeV1 = "SSH-2.0-\x00teleport-resume-v1") := by
  decide

/-- C1 (amended): the client prelude that the server peeks for and then
discards is exactly the 27 bytes `SSH-2.0-\x00teleport-resume-v1`: the
constant `clientPreludeV1` equals that byte sequence (given explicitly as
byte values, with the embedded NUL), has length 27, and its length is the
number of bytes the post-detect hook consumes with `Discard` on a match. -/
theorem c1_prelude_is_27_bytes :
    clientPreludeV1 = "SSH-2.0-\x00teleport-resume-v1" ∧
    clientPreludeV1.length = 27 ∧
    clientPreludeV1.toList.map Char.toNat =
      [83, 83, 72, 45, 50, 46, 48, 45, 0,
       116, 101, 108, 101, 112, 111, 114, 116, 45,
       114, 101, 115, 117, 109, 101, 45, 118, 49] ∧
    (∀ (banner : String) (dhKey : ECDHKey),
      (postDetectHookV1 banner dhKey (PeekResult.ok true)).discarded =
        clientPreludeV1.length) := by
  refine ⟨by decide, by decide, by decide, fun banner dhKey => rfl⟩

/-- C2: for every 65-byte P-256 ephemeral public key encoding and every host
ID string, the banner produced by `serverVersionCRLFV1` is exactly the
single line `SSH-2.0-Teleport resume-v1 `, then the base64 encoding
(standard alphabet, no padding) of the public-key bytes, a space, the host
ID, and the terminating CRLF. -/
theorem c2_server_banner_format (pubKeyBytes : List Nat) (hostID : String)
    (hlen : pubKeyBytes.length = ecdhP256UncompressedSize) :
    serverVersionCRLFV1 pubKeyBytes hostID =
      "SSH-2.0-Teleport resume-v1 " ++
        String.mk (base64RawStdEncode pubKeyBytes) ++ " " ++ hostID ++ "\r\n" :=
  rfl

/-- Witness for C2: `c2_server_banner_format` applied to a concrete 65-byte
key encoding and a concrete host ID. -/
theorem c2_server_banner_format_witness :
    serverVersionCRLFV1 (List.replicate 65 4) "host-id" =
      "SSH-2.0-Teleport resume-v1 " ++
        String.mk (base64RawStdEncode (List.replicate 65 4)) ++ " " ++
        "host-id" ++ "\r\n" :=
  c2_server_banner_format (List.replicate 65 4) "host-id" (by decide)

/-- C3: whenever the peeked client bytes match the resumption prelude, the
post-detect hook consumes exactly `clientPreludeV1.length` bytes, invokes
the resumption exchange with the ephemeral DH key, and returns nil (hijack)
without closing the socket; and `HandleConnection` likewise discards the
prelude, invokes the exchange, and returns without calling the inner SSH
server. -/
theorem c3_prelude_match_hijacks :
    (∀ (banner : String) (dhKey : ECDHKey),
      postDetectHookV1 banner dhKey (PeekResult.ok true) =
        { returnedConn := none, closedConn := false,
          discarded := clientPreludeV1.length,
          resumptionKey := some dhKey, loggedError := false }) ∧
    (∀ (hostID : String) (dhKey : ECDHKey),
      HandleConnection hostID (some dhKey) WriteResult.ok (PeekResult.ok true) =
        { bannerWritten := some (serverVersionCRLFV1 dhKey.pubBytes hostID),
          handedToSSHServer := none, closedConn := false,
          discarded := clientPreludeV1.length,
          resumptionKey := some dhKey, loggedError := false }) ∧
    clientPreludeV1.length = 27 :=
  ⟨fun _ _ => rfl, fun _ _ => rfl, by decide⟩

/-- C4: whenever the peeked client bytes do not match the resumption
prelude, the connection handed back (by the post-detect hook, and to the
inner SSH server by `HandleConnection`) is an `sshVersionSkipConn` whose
`serverVersion` is the banner without its trailing CRLF (appending CRLF to
it restores the banner) and whose `alreadyWritten` field is the full banner
that was sent; the socket is neither closed nor hijacked. -/
theorem c4_legacy_client_wrapped (hostID : String) (dhKey : ECDHKey) :
    postDetectHookV1 (serverVersionCRLFV1 dhKey.pubBytes hostID) dhKey
        (PeekResult.ok false) =
      { returnedConn := some
          { serverVersion := goDropLast2 (serverVersionCRLFV1 dhKey.pubBytes hostID),
            alreadyWritten := serverVersionCRLFV1 dhKey.pubBytes hostID },
        closedConn := false, discarded := 0,
        resumptionKey := none, loggedError := false } ∧
    goDropLast2 (serverVersionCRLFV1 dhKey.pubBytes hostID) ++ "\r\n" =
      serverVersionCRLFV1 dhKey.pubBytes hostID ∧
    HandleConnection hostID (some dhKey) WriteResult.ok (PeekResult.ok false) =
      { bannerWritten := some (serverVersionCRLFV1 dhKey.pubBytes hostID),
        handedToSSHServer := some (HandedConn.wrapped
          { serverVersion := goDropLast2 (serverVersionCRLFV1 dhKey.pubBytes hostID),
            alreadyWritten := serverVersionCRLFV1 dhKey.pubBytes hostID }),
        closedConn := false, discarded := 0,
        resumptionKey := none, loggedError := false } := by
  refine ⟨rfl, ?_, rfl⟩
  have h := goDropLast2_append_crlf
    (serverProtocolStringV1 ++ " " ++
      String.mk (base64RawStdEncode dhKey.pubBytes) ++ " " ++ hostID)
  unfold serverVersionCRLFV1
  rw [h]

end Resumption

namespace Resumption

/-- Helper: over the attach/detach discipline, every reachable `connEntry`
has at most one attached transport and its timer runs exactly when the
attached count is zero. Proved by induction over reachability. -/
theorem attachReachable_inv (e : connEntry) (h : AttachReachable e) :
    e.running ≤ 1 ∧ (e.timeout.isRunning = true ↔ e.running = 0) := by
  induction h with
  | init => exact ⟨by decide, by decide⟩
  | attach e _ hz ih =>
      constructor
      · show (e.running + 1) % uintModulus ≤ 1
        rw [hz]
        decide
      · show TimerState.stopped.isRunning = true ↔ (e.running + 1) % uintModulus = 0
        rw [hz]
        decide
  | detach e _ hp ih =>
      have h1 : e.running = 1 := by omega
      have he : decreaseRunning e =
          { running := 0, timeout := TimerState.armed detachedTimeout } := by
        simp [decreaseRunning, h1,
          show (1 + (uintModulus - 1)) % uintModulus = 0 from by decide]
      rw [he]
      exact ⟨by decide, by decide⟩

/-- C5: the detachment timer of a `connEntry` is governed by the
attach/detach counter: the detached timeout is exactly 60 seconds;
`increaseRunning` always stops the timer and increments the count (wrapping
excluded); `decreaseRunning` decrements the count and re-arms the timer with
the detached timeout precisely when the count reaches zero (otherwise the
timer is left untouched); and on every state reachable under the
attach/detach discipline the timer runs iff the count is zero. -/
theorem c5_detachment_timer_discipline :
    detachedTimeout = 60 * timeSecond ∧
    (∀ e : connEntry,
      (increaseRunning e).timeout = TimerState.stopped ∧
      (e.running + 1 < uintModulus → (increaseRunning e).running = e.running + 1)) ∧
    (∀ e : connEntry, 0 < e.running → e.running < uintModulus →
      (decreaseRunning e).running = e.running - 1 ∧
      (e.running = 1 →
        (decreaseRunning e).timeout = TimerState.armed detachedTimeout) ∧
      (1 < e.running → (decreaseRunning e).timeout = e.timeout)) ∧
    (∀ e : connEntry, AttachReachable e →
      (e.timeout.isRunning = true ↔ e.running = 0)) := by
  refine ⟨rfl, fun e => ⟨rfl, fun hlt => Nat.mod_eq_of_lt hlt⟩,
    fun e hpos hlt => ?_, fun e h => (attachReachable_inv e h).2⟩
  have hM : 0 < uintModulus := by decide
  have hr : (e.running + (uintModulus - 1)) % uintModulus = e.running - 1 := by
    have key : e.running + (uintModulus - 1) = (e.running - 1) + uintModulus := by
      omega
    rw [key, Nat.add_mod_right, Nat.mod_eq_of_lt (by omega)]
  have hdef : decreaseRunning e =
      { running := (e.running + (uintModulus - 1)) % uintModulus,
        timeout := if (e.running + (uintModulus - 1)) % uintModulus = 0 then
          TimerState.armed detachedTimeout else e.timeout } := rfl
  refine ⟨hr, ?_, ?_⟩
  · intro h1
    have hc : (e.running + (uintModulus - 1)) % uintModulus = 0 := by
      rw [hr, h1]
    rw [hdef, if_pos hc]
  · intro hgt
    have hc : ¬ (e.running + (uintModulus - 1)) % uintModulus = 0 := by
      rw [hr]
      omega
    rw [hdef, if_neg hc]

/-- Witness for C5: the timer discipline evaluated on concrete entries — an
attach from the detached initial state, a detach from a singly-attached
state, and the timer-iff-detached invariant at the initial state. -/
theorem c5_detachment_timer_discipline_witness :
    (increaseRunning { running := 0, timeout := TimerState.armed detachedTimeout }).running
        = 0 + 1 ∧
    (decreaseRunning { running := 1, timeout := TimerState.stopped }).running = 1 - 1 ∧
    (decreaseRunning { running := 1, timeout := TimerState.stopped }).timeout =
      TimerState.armed detachedTimeout ∧
    (({ running := 0, timeout := TimerState.armed detachedTimeout } : connEntry).timeout.isRunning
        = true ↔
      ({ running := 0, timeout := TimerState.armed detachedTimeout } : connEntry).running = 0) :=
  ⟨(c5_detachment_timer_discipline.2.1
      { running := 0, timeout := TimerState.armed detachedTimeout }).2 (by decide),
   (c5_detachment_timer_discipline.2.2.1
      { running := 1, timeout := TimerState.stopped } (by decide) (by decide)).1,
   (c5_detachment_timer_discipline.2.2.1
      { running := 1, timeout := TimerState.stopped } (by decide) (by decide)).2.1 rfl,
   c5_detachment_timer_discipline.2.2.2
      { running := 0, timeout := TimerState.armed detachedTimeout } AttachReachable.init⟩

/-- C6: every `connEntry` state reachable under the attach/detach discipline
has an attached-transport count of 0 or 1. -/
theorem c6_single_attach (e : connEntry) (h : AttachReachable e) :
    e.running = 0 ∨ e.running = 1 := by
  have hb := (attachReachable_inv e h).1
  omega

/-- Witness for C6: the single-attach bound at the initial (detached)
state. -/
theorem c6_single_attach_witness :
    ({ running := 0, timeout := TimerState.armed detachedTimeout } : connEntry).running = 0 ∨
    ({ running := 0, timeout := TimerState.armed detachedTimeout } : connEntry).running = 1 :=
  c6_single_attach _ AttachReachable.init

/-- C7: if generation of the ephemeral P-256 DH key fails, `PreDetect` falls
back to the fixed-version hook carrying the plain SSH version banner (no DH
public key), and `HandleConnection` logs the failure and hands the
unmodified socket to the inner SSH server; in neither case is the socket
closed or the resumption exchange entered. -/
theorem c7_keygen_failure_legacy :
    (∀ (hostID : String) (write : WriteResult),
      PreDetect hostID none write =
        PreDetectResult.fixedVersionFallback SSHVersionPrefix) ∧
    SSHVersionPrefix = "SSH-2.0-Teleport" ∧
    (∀ (hostID : String) (write : WriteResult) (peek : PeekResult),
      HandleConnection hostID none write peek =
        { bannerWritten := none, handedToSSHServer := some HandedConn.original,
          closedConn := false, discarded := 0,
          resumptionKey := none, loggedError := true }) :=
  ⟨fun _ _ => rfl, rfl, fun _ _ _ => rfl⟩

/-- C8: if peeking the client prelude fails with any error, the socket is
closed and the connection is neither hijacked into resumption nor handed to
the inner SSH server (the post-detect hook returns nil, `HandleConnection`
returns), and the error is logged exactly when it is not a routine
network-close error. -/
theorem c8_peek_error_closes :
    (∀ (banner : String) (dhKey : ECDHKey) (okNet : Bool),
      postDetectHookV1 banner dhKey (PeekResult.err okNet) =
        { returnedConn := none, closedConn := true, discarded := 0,
          resumptionKey := none, loggedError := !okNet }) ∧
    (∀ (hostID : String) (dhKey : ECDHKey) (okNet : Bool),
      HandleConnection hostID (some dhKey) WriteResult.ok (PeekResult.err okNet) =
        { bannerWritten := some (serverVersionCRLFV1 dhKey.pubBytes hostID),
          handedToSSHServer := none, closedConn := true, discarded := 0,
          resumptionKey := none, loggedError := !okNet }) :=
  ⟨fun _ _ _ => rfl, fun _ _ _ => rfl⟩

end Resumption

namespace MachineIDv1

/-- C9: for every bot name (with non-nil metadata and spec), the backing
user and role produced by `botToUserAndRole` both have the name
`BotResourceName(name)`, which is `bot-` prepended to the name with every
space replaced by a hyphen; both carry the bot label equal to the original
bot name; and the user's role list is exactly the singleton containing that
resource name. -/
theorem c9_bot_user_role_naming (m : BotMetadata) (sp : BotSpec) (now : Nat)
    (createdBy : String) :
    ∃ u r, botToUserAndRole { metadata := some m, spec := some sp } now createdBy
        = some (u, r) ∧
      u.metadata.name = BotResourceName m.name ∧
      r.metadata.name = BotResourceName m.name ∧
      BotResourceName m.name =
        "bot-" ++ String.mk (m.name.toList.map fun c => if c = ' ' then '-' else c) ∧
      lookupLabel u.metadata.labels BotLabel = some m.name ∧
      lookupLabel r.metadata.labels BotLabel = some m.name ∧
      u.roles = [BotResourceName m.name] := by
  refine ⟨_, _, rfl, rfl, rfl, rfl, ?_, ?_, rfl⟩
  · show lookupLabel [(BotLabel, m.name), (BotGenerationLabel, "0")] BotLabel =
      some m.name
    simp [lookupLabel, show (BotLabel == BotLabel) = true from by decide]
  · show lookupLabel [(BotLabel, m.name)] BotLabel = some m.name
    simp [lookupLabel, show (BotLabel == BotLabel) = true from by decide]

/-- C10: `botToUserAndRole` always sets the new bot user's generation label
to "0"; `UpsertBot`, when a user with the bot's resource name already
exists, copies that user's generation label onto the user it upserts (the
upsert calls are made with the copied label in place); and when the existing
user lacks the generation label it returns the BadParameter error without
making any `UpsertUser` or `UpsertRole` call. -/
theorem c10_generation_label_handling (m : BotMetadata) (sp : BotSpec)
    (now : Nat) (createdBy : String) :
    (∀ u r, botToUserAndRole { metadata := some m, spec := some sp } now createdBy
        = some (u, r) →
      lookupLabel u.metadata.labels BotGenerationLabel = some "0") ∧
    (m.name ≠ "" → ∀ (ex : User) (g : String),
      lookupLabel ex.metadata.labels BotGenerationLabel = some g →
      ∃ u2 r2,
        (UpsertBot { metadata := some m, spec := some sp } now createdBy (some ex)).2
            = [BackendCall.upsertUserCall u2, BackendCall.upsertRoleCall r2] ∧
        lookupLabel u2.metadata.labels BotGenerationLabel = some g) ∧
    (m.name ≠ "" → ∀ ex : User,
      lookupLabel ex.metadata.labels BotGenerationLabel = none →
      (UpsertBot { metadata := some m, spec := some sp } now createdBy (some ex)).1
          = Except.error UpsertError.badParameterMissingGeneration ∧
      (UpsertBot { metadata := some m, spec := some sp } now createdBy (some ex)).2
          = []) := by
  have e1 : (BotLabel == BotGenerationLabel) = false := by decide
  have e2 : (BotGenerationLabel == BotGenerationLabel) = true := by decide
  have e3 : (BotLabel == BotLabel) = true := by decide
  refine ⟨?_, ?_, ?_⟩
  · intro u r h
    simp only [botToUserAndRole, Option.some.injEq, Prod.mk.injEq] at h
    obtain ⟨hu, hr⟩ := h
    rw [← hu]
    simp [lookupLabel, e1, e2]
  · intro hname ex g hg
    have hval : validateBot { metadata := some m, spec := some sp } = true := by
      simp [validateBot, hname]
    have htrace : ∀ (u : User) (r : Role),
        (finishUpsert u r).2 =
          [BackendCall.upsertUserCall u, BackendCall.upsertRoleCall r] := by
      intro u r
      unfold finishUpsert
      cases botFromUserAndRole u r <;> rfl
    simp only [UpsertBot, hval, Bool.not_true, Bool.false_eq_true, if_false,
      botToUserAndRole, hg]
    refine ⟨_, _, htrace _ _, ?_⟩
    show lookupLabel
        (setLabel [(BotLabel, m.name), (BotGenerationLabel, "0")]
          BotGenerationLabel g) BotGenerationLabel = some g
    rfl
  · intro hname ex hnone
    have hval : validateBot { metadata := some m, spec := some sp } = true := by
      simp [validateBot, hname]
    constructor
    · simp only [UpsertBot, hval, Bool.not_true, Bool.false_eq_true, if_false,
        botToUserAndRole, hnone]
    · simp only [UpsertBot, hval, Bool.not_true, Bool.false_eq_true, if_false,
        botToUserAndRole, hnone]

end MachineIDv1
